import Mathlib

/-!
Shallow embedding of the resolution logic of `MAXModelConfig` from
`src/max/pipelines/max_config.py`.

External collaborators (filesystem, Hugging Face hub, device scanner, the
`SupportedEncoding` helpers from `max.pipelines.config_enums`, the
`HuggingFaceRepo` helpers from `max.pipelines.hf_utils`, and
`max.graph.weights.weights_format`) are not part of the source under
verification; they are modelled as an oracle environment `Env` of pure
functions.  Python `Path` values are modelled by their string form (entries
are assumed to already be in POSIX normal form, so `str(Path(s)) = s`).
Python exceptions are modelled by `Except Err`; a Python `assert` is
modelled as `Err.assertionError`.
-/

namespace MaxConfig

/-- Device type of a `DeviceSpec` (the code compares `device_type` with the
string `"cpu"`). -/
inductive DeviceType where
  | cpu
  | gpu
deriving DecidableEq, Repr

/-- A requested compute device, `max.driver.DeviceSpec`. -/
structure DeviceSpec where
  device_type : DeviceType
  id : Nat
deriving DecidableEq, Repr

/-- The CLI-level weight encodings, `max.pipelines.config_enums.SupportedEncoding`
(the members used by `max_config.py`). -/
inductive SupportedEncoding where
  | float32
  | bfloat16
  | float16
  | q4_k
  | q4_0
  | q6_k
  | gptq
deriving DecidableEq, Repr

/-- Graph-level quantization encodings, `max.graph.quantization.QuantizationEncoding`. -/
inductive QuantizationEncoding where
  | qfloat32
  | qbfloat16
  | qq4_k
  | qq4_0
  | qq6_k
  | qgptq
deriving DecidableEq, Repr

/-- `max.pipelines.kv_cache.KVCacheStrategy`. -/
inductive KVCacheStrategy where
  | model_default
  | naive
  | continuous
  | paged
deriving DecidableEq, Repr

/-- `max.graph.weights.WeightsFormat`. -/
inductive WeightsFormat where
  | gguf
  | safetensors
  | pytorch
deriving DecidableEq, Repr

/-- Repository classification.  `max.pipelines.config_enums.RepoType` (not under
src/) declares `local` and `online`; `max_config.py` defensively handles any
other classification in `else` branches, so the model carries an explicit
`unexpected` constructor to make those branches statable. -/
inductive RepoType where
  | localRepo
  | online
  | unexpected
deriving DecidableEq, Repr

/-- A raw `weight_path` entry as supplied by the user: a `str`, a `Path`, or a
value of any other type (which `resolve()` rejects). -/
inductive WEntry where
  | str (s : String)
  | path (s : String)
  | other
deriving DecidableEq, Repr

/-- The string form of an entry (`str(path)` in Python). -/
def WEntry.s : WEntry → String
  | .str s => s
  | .path s => s
  | .other => ""

/-- Result of `huggingface_hub.try_to_load_from_cache`: an absolute path, a
plain miss (`None`), or the cached non-existence sentinel `_CACHED_NO_EXIST`. -/
inductive CacheResult where
  | found (p : String)
  | miss
  | no_exist
deriving DecidableEq, Repr

/-- Python exception kinds raised by the resolution logic. -/
inductive Err where
  | valueError (msg : String)
  | fileNotFoundError (msg : String)
  | runtimeError (msg : String)
  | assertionError (msg : String)
  | indexError (msg : String)
deriving DecidableEq, Repr

/-- `max.graph.quantization.QuantizationConfig` as filled in for GPTQ models. -/
structure QuantizationConfig where
  quant_method : String
  bits : Nat
  group_size : Int
  desc_act : Bool
  sym : Bool
deriving DecidableEq, Repr

/-- The fields of `KVCacheConfig` read or written by the resolution logic
(the remaining numeric fields are never consulted by it). -/
structure KVCacheConfig where
  cache_strategy : KVCacheStrategy := KVCacheStrategy.model_default
  kv_cache_page_size : Nat := 128
  enable_prefix_caching : Bool := false
deriving DecidableEq, Repr

/-- Oracle environment: the filesystem, the Hugging Face hub and the external
helper functions consulted by `max_config.py`.  `weights_format` already folds
the `try/except ValueError` into an `Option`. -/
structure Env where
  devices_exist : List DeviceSpec → Bool
  is_file : String → Bool
  path_exists : String → Bool
  hf_file_exists : String → String → Bool
  repo_exists_with_retry : String → Bool
  weights_format : List String → Option WeightsFormat
  parse_from_file_name : String → Option SupportedEncoding
  repo_type : String → RepoType
  repo_file_exists : String → String → Bool
  encoding_for_file : String → String → Option SupportedEncoding
  supported_encodings : String → List SupportedEncoding
  files_for_encoding : String → SupportedEncoding → Option SupportedEncoding →
    List (WeightsFormat × List String)
  try_to_load_from_cache : String → String → String → CacheResult
  resolve_path : String → String
  supported_on : SupportedEncoding → DeviceSpec → Bool
  alternate_encodings : SupportedEncoding → Option SupportedEncoding
  graph_encoding : SupportedEncoding → Option QuantizationEncoding
  torch_dtype_is_float16 : String → Bool
  hf_quant_config : String → QuantizationConfig

/-- The mutable state of `MAXModelConfig` touched by resolution. -/
structure MAXModelConfig where
  model_path : String := ""
  weight_path : List WEntry := []
  quantization_encoding : Option SupportedEncoding := none
  huggingface_revision : String := "main"
  trust_remote_code : Bool := false
  device_specs : List DeviceSpec := []
  force_download : Bool := false
  _weights_repo_id : Option String := none
  _quant_config : Option QuantizationConfig := none
  _kv_cache_config : KVCacheConfig := {}
deriving DecidableEq, Repr

/-- Printable name of an encoding (the `str()` used in messages). -/
def SupportedEncoding.str : SupportedEncoding → String
  | .float32 => "float32"
  | .bfloat16 => "bfloat16"
  | .float16 => "float16"
  | .q4_k => "q4_k"
  | .q4_0 => "q4_0"
  | .q6_k => "q6_k"
  | .gptq => "gptq"

def DeviceType.str : DeviceType → String
  | .cpu => "cpu"
  | .gpu => "gpu"

/-- Python `str.split(sep)` for a single-character separator, on char lists. -/
def splitCharList (sep : Char) : List Char → List (List Char)
  | [] => [[]]
  | c :: cs =>
    match splitCharList sep cs with
    | [] => [[]]
    | g :: gs => if c = sep then [] :: g :: gs else (c :: g) :: gs

/-- Python `s.split(sep)` for a single-character separator. -/
def splitChar (sep : Char) (s : String) : List String :=
  (splitCharList sep s.data).map fun l => String.mk l

/-- `pathlib.Path.suffix` of a POSIX path string. -/
def pathSuffix (p : String) : String :=
  let base := (splitChar '/' p).getLastD ""
  match splitChar '.' base with
  | [] => ""
  | [_] => ""
  | "" :: [_] => ""
  | parts => if parts.getLastD "" = "" then "" else "." ++ parts.getLastD ""

def charPrefixB : List Char → List Char → Bool
  | [], _ => true
  | _ :: _, [] => false
  | a :: as, b :: bs => a = b && charPrefixB as bs

/-- Whether `needle` occurs contiguously in `hay`. -/
def containsSeqB (needle : List Char) : List Char → Bool
  | [] => charPrefixB needle []
  | b :: bs => charPrefixB needle (b :: bs) || containsSeqB needle bs

/-- Python `s.lower()` (ASCII case folding, as used on repo ids). -/
def strToLower (s : String) : String :=
  String.mk (s.data.map Char.toLower)

/-- Python `"replit" in s.lower()`. -/
def containsReplit (s : String) : Bool :=
  containsSeqB "replit".data (strToLower s).data

/-- `dict.get(encoding, [])` over the caller-supplied strategy mapping. -/
def lookupStrategies (qe : SupportedEncoding) :
    List (SupportedEncoding × List KVCacheStrategy) → List KVCacheStrategy
  | [] => []
  | (k, v) :: rest => if k = qe then v else lookupStrategies qe rest

/-- `dict.get(format, [])` over a per-format file index. -/
def lookupFiles (fmt : WeightsFormat) :
    List (WeightsFormat × List String) → List String
  | [] => []
  | (k, v) :: rest => if k = fmt then v else lookupFiles fmt rest

/-- `HuggingFaceRepo.repo_id` of `huggingface_weights_repo`:
`_weights_repo_id if _weights_repo_id else model_path` (Python truthiness, so
an empty-string `_weights_repo_id` also falls back to `model_path`). -/
def huggingface_weights_repo_id (cfg : MAXModelConfig) : String :=
  match cfg._weights_repo_id with
  | some s => if s = "" then cfg.model_path else s
  | none => cfg.model_path

/-! ### Error messages (paraphrased without quote characters; the encoding
names and paths are interpolated exactly where the source interpolates them) -/

def deviceNotExistMsg : String :=
  "device specs provided do not exist"

def weightPathTypeMsg : String :=
  "weight_path provided must either be string or Path"

def deriveModelPathMsg : String :=
  "Unable to derive model_path from weight_path, please provide a valid Hugging Face repository id."

def modelPathRequiredMsg : String :=
  "model_path must be provided and must be a valid Hugging Face repository"

def notValidRepoMsg (mp : String) : String :=
  mp ++ " is not a valid Hugging Face repository"

def inconsistentEncodingMsg (w0 : String) (fe qe : SupportedEncoding) : String :=
  "weight_path provided " ++ (w0 ++ (" has an inconsistent encoding " ++
    (SupportedEncoding.str fe ++ (" than quantization_encoding provided " ++
      (SupportedEncoding.str qe ++ ". Please update one.")))))

def localSafetensorsMsg : String :=
  "If a local safetensors file is provided, please provide a quantization_encoding."

def cannotInferMsg (w0 : String) : String :=
  "encoding cannot be inferred from weights file: " ++ w0 ++
    ", please pass a quantization_encoding explictly."

def encodingMustBeSetMsg : String :=
  "quantization_encoding must be set."

def weightPathMustBeProvidedMsg : String :=
  "weight_path must be provided."

def deviceCompatMsg (qe : SupportedEncoding) (d : DeviceSpec)
    (l : List SupportedEncoding) : String :=
  "The encoding " ++ SupportedEncoding.str qe ++
    " is not compatible with the selected device type " ++
    DeviceType.str d.device_type ++ ". Encodings available for this model: " ++
    String.intercalate ", " (l.map SupportedEncoding.str)

def gptqScalesMsg : String :=
  "bfloat16 scales are not supported for GPTQ-quantized models."

def noCompatibleWeightsGgufMsg (qe : SupportedEncoding) (repo : String) : String :=
  "compatible weights cannot be found for " ++ SupportedEncoding.str qe ++
    " in gguf format, in the provided repo: " ++ repo

def noCompatibleWeightsMsg (qe : SupportedEncoding) : String :=
  "compatible weights cannot be found for " ++ SupportedEncoding.str qe

def cachedNoExistMsg (p : String) : String :=
  "cached non-existent weight file at " ++ p ++ " on Hugging Face"

def weightNotFoundMsg (p repo : String) : String :=
  "weight file " ++ p ++ " not found within the local repository path " ++ repo

def weightNotOnHubMsg (p repo : String) : String :=
  "weight_path: " ++ p ++ " does not exist locally or in cache, and " ++
    repo ++ "/" ++ p ++ " does not exist on HuggingFace."

def unexpectedRepoMsg : String :=
  "unexpected repository type"

def indexErrorMsg : String :=
  "list index out of range"

def cannotConvertNoneMsg : String :=
  "cannot convert None CLI encoding to graph quantization encoding"

/-! ### `resolve()` (lines 187-275): device validation, the replit heuristic,
and weight-path normalization -/

/-- The repository-id splitting applied to one weight-path entry that was not
short-circuited by the `is_file` check (lines 234-252).  Returns the possibly
rewritten path string and the possibly updated `_weights_repo_id`. -/
def splitWeightPath (env : Env) (model_path : String) (wrid : Option String)
    (s : String) : Except Err (String × Option String) :=
  match splitChar '/' s with
  | p0 :: p1 :: p2 :: ps =>
    let repo_id := p0 ++ "/" ++ p1
    let file_name := String.intercalate "/" (p2 :: ps)
    if model_path ≠ "" ∧ repo_id = model_path then
      .ok (file_name, wrid)
    else if env.hf_file_exists repo_id file_name = true then
      .ok (file_name, some repo_id)
    else
      .ok (s, wrid)
  | _ =>
    if model_path = "" then .error (.valueError deriveModelPathMsg)
    else .ok (s, wrid)

/-- One iteration of the normalization loop (lines 221-254).  A `str` entry is
first coerced to `Path` and then — because of the `elif` chain — goes straight
to the splitting logic; only an entry that was already a `Path` gets the
`is_file` short-circuit. -/
def normalizeStep (env : Env) (model_path : String) (wrid : Option String) :
    WEntry → Except Err (String × Option String)
  | .str s => splitWeightPath env model_path wrid s
  | .path s =>
    if env.is_file s = true then .ok (s, wrid)
    else splitWeightPath env model_path wrid s
  | .other => .error (.valueError weightPathTypeMsg)

/-- The whole normalization loop over `weight_path`, threading
`_weights_repo_id` left to right. -/
def normalizeWeightPaths (env : Env) (model_path : String) :
    Option String → List WEntry → Except Err (List WEntry × Option String)
  | wrid, [] => .ok ([], wrid)
  | wrid, e :: rest =>
    match normalizeStep env model_path wrid e with
    | .error err => .error err
    | .ok (p, wrid1) =>
      match normalizeWeightPaths env model_path wrid1 rest with
      | .error err => .error err
      | .ok (ps, wrid2) => .ok (WEntry.path p :: ps, wrid2)

/-- The part of `resolve()` after the device check and the replit heuristic
(lines 214-275): weight-path normalization and model-path fallback. -/
def resolveNormalization (env : Env) (cfg1 : MAXModelConfig) :
    Except Err MAXModelConfig :=
  match normalizeWeightPaths env cfg1.model_path cfg1._weights_repo_id cfg1.weight_path with
    | .error e => .error e
    | .ok (wps, wrid) =>
      let cfg2 := {cfg1 with weight_path := wps, _weights_repo_id := wrid}
      match wps with
      | [] =>
        if cfg2.model_path = "" then
          .error (.valueError modelPathRequiredMsg)
        else if env.path_exists cfg2.model_path = false ∧
            env.repo_exists_with_retry cfg2.model_path = false then
          .error (.valueError (notValidRepoMsg cfg2.model_path))
        else .ok cfg2
      | _ :: _ =>
        if cfg2.model_path = "" then
          match wrid with
          | some r => .ok {cfg2 with model_path := r}
          | none => .ok cfg2
        else .ok cfg2

/-- `MAXModelConfig.resolve` (lines 187-275): device validation, the replit
trust-remote-code heuristic, then normalization. -/
def resolve (env : Env) (cfg : MAXModelConfig) : Except Err MAXModelConfig :=
  if env.devices_exist cfg.device_specs = false then
    .error (.valueError deviceNotExistMsg)
  else
    resolveNormalization env
      (if containsReplit cfg.model_path = true then
        {cfg with trust_remote_code := true}
      else cfg)

/-! ### Encoding resolution (lines 385-463) -/

/-- The final `elif not self.quantization_encoding` branch (lines 445-463):
pick the encoding from the repository metadata, the accelerator heuristic, or
the caller default.  Python indexes `self.device_specs[0]`, which raises
`IndexError` on an empty device list. -/
def resolveEncodingFromRepo (env : Env) (default_encoding : SupportedEncoding)
    (cfg : MAXModelConfig) : Except Err MAXModelConfig :=
  let supported := env.supported_encodings (huggingface_weights_repo_id cfg)
  match supported with
  | [e] => .ok {cfg with quantization_encoding := some e}
  | _ =>
    match cfg.device_specs with
    | [] => .error (.indexError indexErrorMsg)
    | d :: _ =>
      if d.device_type ≠ DeviceType.cpu ∧ SupportedEncoding.bfloat16 ∈ supported then
        .ok {cfg with quantization_encoding := some SupportedEncoding.bfloat16}
      else
        .ok {cfg with quantization_encoding := some default_encoding}

/-- `MAXModelConfig.validate_and_resolve_quantization_encoding_weight_path`
(lines 385-463). -/
def validate_and_resolve_quantization_encoding_weight_path (env : Env)
    (default_encoding : SupportedEncoding) (cfg : MAXModelConfig) :
    Except Err MAXModelConfig :=
  let wf := env.weights_format (cfg.weight_path.map WEntry.s)
  match cfg.weight_path, cfg.quantization_encoding with
  | w0 :: _, some qe =>
    if wf ≠ some WeightsFormat.pytorch then
      match (if env.path_exists w0.s = true then
               env.parse_from_file_name w0.s
             else
               env.encoding_for_file (huggingface_weights_repo_id cfg) w0.s) with
      | some fe =>
        if fe ≠ qe then
          .error (.valueError (inconsistentEncodingMsg w0.s fe qe))
        else .ok cfg
      | none => .ok cfg
    else .ok cfg
  | w0 :: _, none =>
    if wf ≠ some WeightsFormat.pytorch then
      if env.path_exists w0.s = true then
        if pathSuffix w0.s = ".safetensors" then
          .error (.valueError localSafetensorsMsg)
        else
          match env.parse_from_file_name w0.s with
          | some e => .ok {cfg with quantization_encoding := some e}
          | none => .ok cfg
      else
        match env.encoding_for_file (huggingface_weights_repo_id cfg) w0.s with
        | some e => .ok {cfg with quantization_encoding := some e}
        | none => .error (.valueError (cannotInferMsg w0.s))
    else
      resolveEncodingFromRepo env default_encoding cfg
  | [], some _ => .ok cfg
  | [], none => resolveEncodingFromRepo env default_encoding cfg

/-! ### The post-encoding pipeline (lines 465-628) -/

/-- `_validate_quantization_encoding_device_compatibility` (lines 483-508). -/
def _validate_quantization_encoding_device_compatibility (env : Env)
    (supported_encodings_list : List SupportedEncoding) (cfg : MAXModelConfig) :
    Except Err MAXModelConfig :=
  match cfg.quantization_encoding with
  | none => .error (.assertionError encodingMustBeSetMsg)
  | some qe =>
    match cfg.device_specs.find? (fun d => env.supported_on qe d = false) with
    | some d => .error (.valueError (deviceCompatMsg qe d supported_encodings_list))
    | none => .ok cfg

/-- `_finalize_encoding_config` (lines 630-656).  `AutoConfig.from_pretrained`
and the quantization dictionary are oracles. -/
def _finalize_encoding_config (env : Env) (cfg : MAXModelConfig) :
    Except Err MAXModelConfig :=
  if cfg.quantization_encoding = some SupportedEncoding.gptq then
    if env.torch_dtype_is_float16 cfg.model_path = false then
      .error (.valueError gptqScalesMsg)
    else
      .ok {cfg with _quant_config := some (env.hf_quant_config cfg.model_path)}
  else .ok cfg

/-- The default-fill step of `_resolve_weight_path` (lines 524-549): when
`weight_path` is empty, query the per-encoding file index, prefer the default
weights format, otherwise take the first available value. -/
def fillWeightPath (env : Env) (default_weights_format : WeightsFormat)
    (qe : SupportedEncoding) (cfg : MAXModelConfig) : MAXModelConfig :=
  match cfg.weight_path with
  | _ :: _ => cfg
  | [] =>
    let alternate := env.alternate_encodings qe
    let weight_files :=
      env.files_for_encoding (huggingface_weights_repo_id cfg) qe alternate
    match lookupFiles default_weights_format weight_files with
    | f :: fs => {cfg with weight_path := (f :: fs).map WEntry.path}
    | [] =>
      match weight_files with
      | [] => cfg
      | (_, v) :: _ => {cfg with weight_path := v.map WEntry.path}

/-- `_resolve_weight_path` (lines 510-560).  The inner
`if self.quantization_encoding` is collapsed: the assert guarantees it. -/
def _resolve_weight_path (env : Env) (default_weights_format : WeightsFormat)
    (cfg : MAXModelConfig) : Except Err MAXModelConfig :=
  match cfg.quantization_encoding with
  | none => .error (.assertionError encodingMustBeSetMsg)
  | some qe =>
    let cfg1 := fillWeightPath env default_weights_format qe cfg
    match cfg1.weight_path with
    | [] =>
      if qe ≠ SupportedEncoding.bfloat16 ∧ qe ≠ SupportedEncoding.float32 then
        .error (.valueError (noCompatibleWeightsGgufMsg qe (huggingface_weights_repo_id cfg)))
      else
        .error (.valueError (noCompatibleWeightsMsg qe))
    | _ :: _ => .ok cfg1

/-- Write the cache strategy through the nested `KVCacheConfig`. -/
def setCacheStrategy (cfg : MAXModelConfig) (s : KVCacheStrategy) : MAXModelConfig :=
  {cfg with _kv_cache_config := {cfg._kv_cache_config with cache_strategy := s}}

/-- `_resolve_kv_cache_strategy` (lines 562-596). -/
def _resolve_kv_cache_strategy
    (supported_encodings : List (SupportedEncoding × List KVCacheStrategy))
    (cfg : MAXModelConfig) : Except Err MAXModelConfig :=
  match cfg.quantization_encoding with
  | none => .error (.assertionError encodingMustBeSetMsg)
  | some qe =>
    let supported_cache_strategies := lookupStrategies qe supported_encodings
    match supported_cache_strategies with
    | s :: _ =>
      if cfg._kv_cache_config.cache_strategy = KVCacheStrategy.model_default then
        .ok (setCacheStrategy cfg s)
      else if cfg._kv_cache_config.cache_strategy ∉ supported_cache_strategies then
        .ok (setCacheStrategy cfg s)
      else .ok cfg
    | [] => .ok cfg

/-- `_local_weight_path` (lines 658-712): direct filesystem hit, then for
online repositories the Hugging Face cache (whose confirmed-absent sentinel
raises `FileNotFoundError`), and `None` (with a logged warning) for an
unexpected repository type. -/
def _local_weight_path (env : Env) (cfg : MAXModelConfig)
    (relative_path : String) : Except Err (Option String) :=
  if env.is_file relative_path = true then
    .ok (some (env.resolve_path relative_path))
  else
    match env.repo_type (huggingface_weights_repo_id cfg) with
    | RepoType.localRepo => .ok none
    | RepoType.online =>
      match env.try_to_load_from_cache (huggingface_weights_repo_id cfg)
          relative_path cfg.huggingface_revision with
      | CacheResult.found p => .ok (some p)
      | CacheResult.miss => .ok none
      | CacheResult.no_exist =>
        .error (.fileNotFoundError (cachedNoExistMsg relative_path))
    | RepoType.unexpected => .ok none

/-- The `for path in self.weight_path` loop of
`_validate_final_architecture_model_path_weight_path` (lines 603-628). -/
def validateFinalGo (env : Env) (cfg : MAXModelConfig) :
    List WEntry → Except Err MAXModelConfig
  | [] => .ok cfg
  | p :: rest =>
    match _local_weight_path env cfg p.s with
    | .error e => .error e
    | .ok (some _) => validateFinalGo env cfg rest
    | .ok none =>
      match env.repo_type (huggingface_weights_repo_id cfg) with
      | RepoType.localRepo =>
        .error (.fileNotFoundError (weightNotFoundMsg p.s (huggingface_weights_repo_id cfg)))
      | RepoType.online =>
        if env.repo_file_exists (huggingface_weights_repo_id cfg) p.s = false then
          .error (.valueError (weightNotOnHubMsg p.s (huggingface_weights_repo_id cfg)))
        else validateFinalGo env cfg rest
      | RepoType.unexpected =>
        .error (.runtimeError unexpectedRepoMsg)

/-- `_validate_final_architecture_model_path_weight_path` (lines 598-628). -/
def _validate_final_architecture_model_path_weight_path (env : Env)
    (cfg : MAXModelConfig) : Except Err MAXModelConfig :=
  match cfg.weight_path with
  | [] => .error (.assertionError weightPathMustBeProvidedMsg)
  | _ :: _ => validateFinalGo env cfg cfg.weight_path

/-- `validate_and_resolve_with_set_quantization_encoding` (lines 465-481). -/
def validate_and_resolve_with_set_quantization_encoding (env : Env)
    (supported_encodings : List (SupportedEncoding × List KVCacheStrategy))
    (default_weights_format : WeightsFormat) (cfg : MAXModelConfig) :
    Except Err MAXModelConfig :=
  match _validate_quantization_encoding_device_compatibility env
      (supported_encodings.map Prod.fst) cfg with
  | .error e => .error e
  | .ok c1 =>
    match _finalize_encoding_config env c1 with
    | .error e => .error e
    | .ok c2 =>
      match _resolve_weight_path env default_weights_format c2 with
      | .error e => .error e
      | .ok c3 =>
        match _resolve_kv_cache_strategy supported_encodings c3 with
        | .error e => .error e
        | .ok c4 => _validate_final_architecture_model_path_weight_path env c4

/-- `resolve()` followed by
`validate_and_resolve_with_set_quantization_encoding` (the pipeline of claim C4). -/
def resolveThenValidate (env : Env)
    (supported_encodings : List (SupportedEncoding × List KVCacheStrategy))
    (default_weights_format : WeightsFormat) (cfg : MAXModelConfig) :
    Except Err MAXModelConfig :=
  match resolve env cfg with
  | .error e => .error e
  | .ok c =>
    validate_and_resolve_with_set_quantization_encoding env supported_encodings
      default_weights_format c

/-- The `graph_quantization_encoding` property (lines 281-296).  The enum's
`quantization_encoding` attribute lives in `config_enums` and is an oracle. -/
def graph_quantization_encoding (env : Env) (cfg : MAXModelConfig) :
    Except Err (Option QuantizationEncoding) :=
  match cfg.quantization_encoding with
  | none => .error (.valueError cannotConvertNoneMsg)
  | some e => .ok (env.graph_encoding e)

/-! ### Concrete environments and configurations used by witnesses,
counterexamples and failing-input evaluations -/

def dCPU : DeviceSpec := ⟨DeviceType.cpu, 0⟩

def dGPU : DeviceSpec := ⟨DeviceType.gpu, 0⟩

/-- A neutral oracle: every device exists, nothing is on disk, the hub knows
nothing, every repository is online. -/
def baseEnv : Env where
  devices_exist := fun _ => true
  is_file := fun _ => false
  path_exists := fun _ => false
  hf_file_exists := fun _ _ => false
  repo_exists_with_retry := fun _ => true
  weights_format := fun _ => none
  parse_from_file_name := fun _ => none
  repo_type := fun _ => RepoType.online
  repo_file_exists := fun _ _ => false
  encoding_for_file := fun _ _ => none
  supported_encodings := fun _ => []
  files_for_encoding := fun _ _ _ => []
  try_to_load_from_cache := fun _ _ _ => CacheResult.miss
  resolve_path := fun s => s
  supported_on := fun _ _ => true
  alternate_encodings := fun _ => none
  graph_encoding := fun _ => none
  torch_dtype_is_float16 := fun _ => true
  hf_quant_config := fun _ => ⟨"gptq", 4, 128, false, true⟩

/-- C1: the file `org/repo/w.bin` exists on disk. -/
def env1 : Env := {baseEnv with is_file := fun s => s == "org/repo/w.bin"}

def cfgC1 : MAXModelConfig := {model_path := "org/repo", device_specs := [dCPU]}

/-- C2: the repository supports two encodings, bfloat16 among them. -/
def env2 : Env :=
  {baseEnv with supported_encodings :=
    fun _ => [SupportedEncoding.bfloat16, SupportedEncoding.float32]}

/-- C2: the first requested device is a CPU, a GPU is requested second. -/
def cfgC2 : MAXModelConfig :=
  {model_path := "acme/m", device_specs := [dCPU, dGPU]}

/-- C2 witness oracle: the repository supports exactly one encoding. -/
def envC2w : Env :=
  {baseEnv with supported_encodings := fun _ => [SupportedEncoding.bfloat16]}

/-- C2 witness config: a single GPU device, no weight path, no encoding. -/
def cfgC2w : MAXModelConfig :=
  {model_path := "acme/m", device_specs := [dGPU]}

/-- C3: `w.gguf` exists locally, its name yields no encoding, the format is
gguf (not pytorch). -/
def env3 : Env :=
  {baseEnv with
    path_exists := fun s => s == "w.gguf"
    weights_format := fun _ => some WeightsFormat.gguf}

def cfgC3 : MAXModelConfig :=
  {model_path := "acme/m", weight_path := [WEntry.path "w.gguf"],
   device_specs := [dCPU]}

/-- C3: a local safetensors file. -/
def env3s : Env :=
  {baseEnv with
    path_exists := fun s => s == "w.safetensors"
    weights_format := fun _ => some WeightsFormat.safetensors}

def cfgC3s : MAXModelConfig :=
  {model_path := "acme/m", weight_path := [WEntry.path "w.safetensors"],
   device_specs := [dCPU]}

/-- C4: `local.gguf` exists as a file; everything else neutral. -/
def env4 : Env := {baseEnv with is_file := fun s => s == "local.gguf"}

/-- C4: empty model path, one existing local weight file, explicit encoding. -/
def cfgC4 : MAXModelConfig :=
  {model_path := "", weight_path := [WEntry.path "local.gguf"],
   quantization_encoding := some SupportedEncoding.float32,
   device_specs := [dCPU]}

def mapC4 : List (SupportedEncoding × List KVCacheStrategy) :=
  [(SupportedEncoding.float32, [KVCacheStrategy.paged])]

/-- C5: the hub confirms `f.safetensors` inside `org2/repo2`. -/
def env5 : Env :=
  {baseEnv with hf_file_exists :=
    fun r f => r == "org2/repo2" && f == "f.safetensors"}

/-- C6/C7 witness oracle: the first weight file parses as bfloat16, format gguf. -/
def env6 : Env :=
  {baseEnv with
    path_exists := fun s => s == "m-bf16.gguf"
    parse_from_file_name := fun s =>
      if s == "m-bf16.gguf" then some SupportedEncoding.bfloat16 else none
    weights_format := fun _ => some WeightsFormat.gguf}

def cfgC6 : MAXModelConfig :=
  {model_path := "acme/m", weight_path := [WEntry.path "m-bf16.gguf"],
   quantization_encoding := some SupportedEncoding.float32,
   device_specs := [dCPU]}

/-- C7 witness: q4_k supports only paged, continuous requested. -/
def cfgC7 : MAXModelConfig :=
  {model_path := "acme/m", weight_path := [WEntry.path "w-q4_k.gguf"],
   quantization_encoding := some SupportedEncoding.q4_k,
   device_specs := [dCPU],
   _kv_cache_config := {cache_strategy := KVCacheStrategy.continuous}}

def mapC7 : List (SupportedEncoding × List KVCacheStrategy) :=
  [(SupportedEncoding.q4_k, [KVCacheStrategy.paged])]

/-- C8 counterexample: online repository, cache holds a confirmed-absent
sentinel for the weight file, the remote existence check fails. -/
def env8 : Env :=
  {baseEnv with try_to_load_from_cache := fun _ _ _ => CacheResult.no_exist}

def cfgC8 : MAXModelConfig :=
  {model_path := "acme/r", weight_path := [WEntry.path "w.bin"],
   quantization_encoding := some SupportedEncoding.float32,
   device_specs := [dCPU]}

/-- C8 witness: a local repository that does not contain the file. -/
def env8w : Env := {baseEnv with repo_type := fun _ => RepoType.localRepo}

/-- C9 witness: a replit model path with an existing local weight file. -/
def env9 : Env := {baseEnv with is_file := fun s => s == "w.gguf"}

def cfgC9 : MAXModelConfig :=
  {model_path := "modularai/Replit-code", weight_path := [WEntry.path "w.gguf"],
   device_specs := [dCPU]}

/-- C10 witness oracle. -/
def env10 : Env :=
  {baseEnv with graph_encoding := fun e =>
    if e = SupportedEncoding.float32 then some QuantizationEncoding.qfloat32 else none}

def cfgC10 : MAXModelConfig :=
  {model_path := "acme/m",
   quantization_encoding := some SupportedEncoding.float32,
   device_specs := [dCPU]}

/-! ### Claim theorems -/

/-- C1 (amended): for weight-path lists in which every entry is supplied as a
`Path` and already exists as a file on the local filesystem, the normalization
loop of `resolve()` is a no-op: every entry is kept as-is, no repository-id
splitting is applied, no error is raised and `_weights_repo_id` stays unset.
Since the output equals the input, normalization applied to its own output
changes nothing. -/
theorem C1_normalization_noop_on_path_file_entries (env : Env) (mp : String)
    (ws : List WEntry)
    (h : ∀ e ∈ ws, ∃ s, e = WEntry.path s ∧ env.is_file s = true) :
    normalizeWeightPaths env mp none ws = .ok (ws, none) := by
  induction ws with
  | nil => rfl
  | cons e rest ih =>
    obtain ⟨s, he, hs⟩ := h e (List.mem_cons_self _ _)
    subst he
    have hrest := ih fun x hx => h x (List.mem_cons_of_mem _ hx)
    simp [normalizeWeightPaths, normalizeStep, hs, hrest]

/-- Witness for C1 at a concrete input. -/
theorem C1_witness :
    normalizeWeightPaths env4 "acme/m" none [WEntry.path "local.gguf"] =
      .ok ([WEntry.path "local.gguf"], none) :=
  C1_normalization_noop_on_path_file_entries env4 "acme/m"
    [WEntry.path "local.gguf"]
    (by
      intro e he
      rw [List.mem_singleton] at he
      exact ⟨"local.gguf", he, rfl⟩)

/-- Counterexample to C1 as stated: the entry `org/repo/w.bin` is supplied as
a string and exists as a file on the local filesystem, yet normalization
splits the repository id off and rewrites the entry to `w.bin`: the exists-as-
file short-circuit applies only to entries already of `Path` type. -/
theorem C1_counterexample :
    env1.is_file (WEntry.s (WEntry.str "org/repo/w.bin")) = true ∧
    normalizeWeightPaths env1 "org/repo" none [WEntry.str "org/repo/w.bin"] =
      .ok ([WEntry.path "w.bin"], none) :=
  ⟨rfl, rfl⟩

/-- C3 (the code deviates): `w.gguf` exists locally, its weights format is
gguf (not pytorch), no encoding is set, and its file name yields no encoding;
the resolution method returns without raising and leaves
`quantization_encoding` unset, after which the next pipeline stage fails its
own `quantization_encoding must be set` assertion.  The claim expects an
`InvalidConfiguration` (ValueError) here, as is indeed raised in the analogous
remote branch.  The local `.safetensors` half of the claim does hold (final
conjunct). -/
theorem C3_local_inference_silently_skipped :
    validate_and_resolve_quantization_encoding_weight_path env3
      SupportedEncoding.float32 cfgC3 = .ok cfgC3 ∧
    cfgC3.quantization_encoding = none ∧
    env3.path_exists "w.gguf" = true ∧
    env3.parse_from_file_name "w.gguf" = none ∧
    env3.weights_format (cfgC3.weight_path.map WEntry.s) =
      some WeightsFormat.gguf ∧
    _validate_quantization_encoding_device_compatibility env3
      [SupportedEncoding.float32] cfgC3 =
      .error (.assertionError encodingMustBeSetMsg) ∧
    validate_and_resolve_quantization_encoding_weight_path env3s
      SupportedEncoding.float32 cfgC3s =
      .error (.valueError localSafetensorsMsg) :=
  ⟨rfl, rfl, rfl, rfl, rfl, rfl, rfl⟩

/-- C10: the `graph_quantization_encoding` accessor raises `ValueError`
exactly when `quantization_encoding` is `None`, and otherwise returns the
graph-level encoding corresponding to the set encoding (the accessor reads the
configuration without modifying it). -/
theorem C10_graph_quantization_encoding (env : Env) (cfg : MAXModelConfig) :
    (cfg.quantization_encoding = none →
      graph_quantization_encoding env cfg =
        .error (.valueError cannotConvertNoneMsg)) ∧
    (∀ e, cfg.quantization_encoding = some e →
      graph_quantization_encoding env cfg = .ok (env.graph_encoding e)) := by
  constructor
  · intro h
    simp [graph_quantization_encoding, h]
  · intro e h
    simp [graph_quantization_encoding, h]

/-- Witness for C10 at a concrete input. -/
theorem C10_witness :
    graph_quantization_encoding env10 cfgC10 =
      .ok (some QuantizationEncoding.qfloat32) :=
  (C10_graph_quantization_encoding env10 cfgC10).2 SupportedEncoding.float32 rfl

/-- C2 (amended): with no weight path and no explicit encoding, the encoding
is chosen in priority order: a sole repository-supported encoding wins;
otherwise, if the FIRST requested device is non-CPU and bfloat16 is among the
supported encodings, bfloat16 is adopted; otherwise the caller default is
adopted.  (The code inspects only `device_specs[0]`, not every device.) -/
theorem C2_encoding_priority (env : Env) (default_encoding : SupportedEncoding)
    (cfg : MAXModelConfig) (d : DeviceSpec) (ds : List DeviceSpec)
    (h1 : cfg.weight_path = []) (h2 : cfg.quantization_encoding = none)
    (h3 : cfg.device_specs = d :: ds) :
    (∀ e, env.supported_encodings (huggingface_weights_repo_id cfg) = [e] →
      validate_and_resolve_quantization_encoding_weight_path env
        default_encoding cfg =
        .ok {cfg with quantization_encoding := some e}) ∧
    ((env.supported_encodings (huggingface_weights_repo_id cfg)).length ≠ 1 →
      d.device_type ≠ DeviceType.cpu →
      SupportedEncoding.bfloat16 ∈
        env.supported_encodings (huggingface_weights_repo_id cfg) →
      validate_and_resolve_quantization_encoding_weight_path env
        default_encoding cfg =
        .ok {cfg with quantization_encoding := some SupportedEncoding.bfloat16}) ∧
    ((env.supported_encodings (huggingface_weights_repo_id cfg)).length ≠ 1 →
      ¬(d.device_type ≠ DeviceType.cpu ∧
        SupportedEncoding.bfloat16 ∈
          env.supported_encodings (huggingface_weights_repo_id cfg)) →
      validate_and_resolve_quantization_encoding_weight_path env
        default_encoding cfg =
        .ok {cfg with quantization_encoding := some default_encoding}) := by
  have hv : validate_and_resolve_quantization_encoding_weight_path env
      default_encoding cfg = resolveEncodingFromRepo env default_encoding cfg := by
    unfold validate_and_resolve_quantization_encoding_weight_path
    rw [h1, h2]
  refine ⟨?_, ?_, ?_⟩
  · intro e he
    rw [hv]
    unfold resolveEncodingFromRepo
    rw [he]
  · intro hlen hd hb
    rw [hv]
    unfold resolveEncodingFromRepo
    rcases hsup : env.supported_encodings (huggingface_weights_repo_id cfg) with
      _ | ⟨x, _ | ⟨y, zs⟩⟩
    · rw [hsup] at hb
      simp at hb
    · rw [hsup] at hlen
      simp at hlen
    · rw [hsup] at hb
      simp only [hsup, h3]
      rw [if_pos ⟨hd, hb⟩]
  · intro hlen hnot
    rw [hv]
    unfold resolveEncodingFromRepo
    rcases hsup : env.supported_encodings (huggingface_weights_repo_id cfg) with
      _ | ⟨x, _ | ⟨y, zs⟩⟩
    · rw [hsup] at hnot
      simp only [hsup, h3]
      rw [if_neg hnot]
    · rw [hsup] at hlen
      simp at hlen
    · rw [hsup] at hnot
      simp only [hsup, h3]
      rw [if_neg hnot]

/-- Witness for C2 at a concrete input: singleton supported-encodings set. -/
theorem C2_witness :
    validate_and_resolve_quantization_encoding_weight_path envC2w
      SupportedEncoding.float32 cfgC2w =
      .ok {cfgC2w with quantization_encoding := some SupportedEncoding.bfloat16} :=
  (C2_encoding_priority envC2w SupportedEncoding.float32 cfgC2w dGPU [] rfl rfl
    rfl).1 SupportedEncoding.bfloat16 rfl

/-- Counterexample to C2 as stated: a GPU is among the requested devices and
bfloat16 is supported, yet because the FIRST device is a CPU the code adopts
the caller default (float32), not bfloat16. -/
theorem C2_counterexample :
    cfgC2.weight_path = [] ∧
    cfgC2.quantization_encoding = none ∧
    cfgC2.device_specs = [dCPU, dGPU] ∧
    dGPU.device_type = DeviceType.gpu ∧
    SupportedEncoding.bfloat16 ∈
      env2.supported_encodings (huggingface_weights_repo_id cfgC2) ∧
    (env2.supported_encodings (huggingface_weights_repo_id cfgC2)).length ≠ 1 ∧
    validate_and_resolve_quantization_encoding_weight_path env2
      SupportedEncoding.float32 cfgC2 =
      .ok {cfgC2 with quantization_encoding := some SupportedEncoding.float32} ∧
    SupportedEncoding.float32 ≠ SupportedEncoding.bfloat16 :=
  ⟨rfl, rfl, rfl, rfl, by decide, by decide, rfl, by decide⟩

/-- C5: a weight-path entry with at least three slash-separated segments that
does not exist as a local file: if the leading `org/repo` equals the non-empty
`model_path` the entry is rewritten to the remainder with `_weights_repo_id`
left unset; if it differs and the remote existence check confirms the file,
the entry is rewritten to the remainder and `_weights_repo_id` is set to
`org/repo`. -/
theorem C5_repo_id_splitting (env : Env) (mp s p0 p1 p2 : String)
    (ps : List String)
    (hfile : env.is_file s = false)
    (hsplit : splitChar '/' s = p0 :: p1 :: p2 :: ps) :
    (mp ≠ "" → p0 ++ "/" ++ p1 = mp →
      normalizeWeightPaths env mp none [WEntry.path s] =
        .ok ([WEntry.path (String.intercalate "/" (p2 :: ps))], none)) ∧
    (p0 ++ "/" ++ p1 ≠ mp →
      env.hf_file_exists (p0 ++ "/" ++ p1)
        (String.intercalate "/" (p2 :: ps)) = true →
      normalizeWeightPaths env mp none [WEntry.path s] =
        .ok ([WEntry.path (String.intercalate "/" (p2 :: ps))],
          some (p0 ++ "/" ++ p1))) := by
  constructor
  · intro hmp heq
    simp [normalizeWeightPaths, normalizeStep, splitWeightPath, hfile, hsplit,
      if_pos (And.intro hmp heq)]
  · intro hne hex
    have hcond : ¬(mp ≠ "" ∧ p0 ++ "/" ++ p1 = mp) := fun hh => hne hh.2
    simp [normalizeWeightPaths, normalizeStep, splitWeightPath, hfile, hsplit,
      if_neg hcond, hex]

/-- Witness for C5 at a concrete input (second arm: foreign repository id
confirmed remotely). -/
theorem C5_witness :
    normalizeWeightPaths env5 "mm" none
      [WEntry.path "org2/repo2/f.safetensors"] =
      .ok ([WEntry.path "f.safetensors"], some "org2/repo2") :=
  (C5_repo_id_splitting env5 "mm" "org2/repo2/f.safetensors" "org2" "repo2"
    "f.safetensors" [] rfl rfl).2 (by decide) rfl

/-- C6: non-empty weight path, explicit encoding, non-pytorch format, and the
encoding determined from the first weight file (local file-name parse when it
exists, repository metadata otherwise) differs from the explicit one:
resolution fails with a ValueError whose message interpolates both encodings. -/
theorem C6_explicit_encoding_mismatch (env : Env)
    (default_encoding : SupportedEncoding) (cfg : MAXModelConfig)
    (w0 : WEntry) (rest : List WEntry) (qe fe : SupportedEncoding)
    (h1 : cfg.weight_path = w0 :: rest)
    (h2 : cfg.quantization_encoding = some qe)
    (h3 : env.weights_format (cfg.weight_path.map WEntry.s) ≠
      some WeightsFormat.pytorch)
    (h4 : (if env.path_exists w0.s = true then env.parse_from_file_name w0.s
           else env.encoding_for_file (huggingface_weights_repo_id cfg) w0.s) =
      some fe)
    (h5 : fe ≠ qe) :
    validate_and_resolve_quantization_encoding_weight_path env
      default_encoding cfg =
      .error (.valueError (inconsistentEncodingMsg w0.s fe qe)) ∧
    ∃ a b c, inconsistentEncodingMsg w0.s fe qe =
      a ++ (SupportedEncoding.str fe ++ (b ++ (SupportedEncoding.str qe ++ c))) := by
  constructor
  · rw [h1] at h3
    simp only [List.map_cons] at h3
    simp [validate_and_resolve_quantization_encoding_weight_path, h1, h2, h3,
      h4, h5]
  · refine ⟨"weight_path provided " ++ (w0.s ++ " has an inconsistent encoding "),
      " than quantization_encoding provided ", ". Please update one.", ?_⟩
    simp [inconsistentEncodingMsg, String.append_assoc]

/-- Witness for C6 at a concrete input. -/
theorem C6_witness :
    validate_and_resolve_quantization_encoding_weight_path env6
      SupportedEncoding.float32 cfgC6 =
      .error (.valueError (inconsistentEncodingMsg "m-bf16.gguf"
        SupportedEncoding.bfloat16 SupportedEncoding.float32)) :=
  (C6_explicit_encoding_mismatch env6 SupportedEncoding.float32 cfgC6
    (WEntry.path "m-bf16.gguf") [] SupportedEncoding.float32
    SupportedEncoding.bfloat16 rfl rfl (by decide) rfl (by decide)).1

/-- C7: cache-strategy resolution from the caller-supplied mapping: a
`model_default` strategy is replaced by the first supported entry when the
list is non-empty; an explicitly set strategy absent from a non-empty list is
downgraded to the first entry (warning only); in every other case (empty or
missing list, or explicitly set and supported) the strategy is unchanged; and
with a set encoding the resolution never raises. -/
theorem C7_cache_strategy_resolution
    (map : List (SupportedEncoding × List KVCacheStrategy))
    (cfg : MAXModelConfig) (qe : SupportedEncoding)
    (h : cfg.quantization_encoding = some qe) :
    (∀ s ss, lookupStrategies qe map = s :: ss →
      cfg._kv_cache_config.cache_strategy = KVCacheStrategy.model_default →
      _resolve_kv_cache_strategy map cfg = .ok (setCacheStrategy cfg s)) ∧
    (∀ s ss, lookupStrategies qe map = s :: ss →
      cfg._kv_cache_config.cache_strategy ≠ KVCacheStrategy.model_default →
      cfg._kv_cache_config.cache_strategy ∉ lookupStrategies qe map →
      _resolve_kv_cache_strategy map cfg = .ok (setCacheStrategy cfg s)) ∧
    (lookupStrategies qe map = [] →
      _resolve_kv_cache_strategy map cfg = .ok cfg) ∧
    (cfg._kv_cache_config.cache_strategy ≠ KVCacheStrategy.model_default →
      cfg._kv_cache_config.cache_strategy ∈ lookupStrategies qe map →
      _resolve_kv_cache_strategy map cfg = .ok cfg) ∧
    (∃ c, _resolve_kv_cache_strategy map cfg = .ok c) := by
  refine ⟨?_, ?_, ?_, ?_, ?_⟩
  · intro s ss hsup hmd
    simp [_resolve_kv_cache_strategy, h, hsup, hmd]
  · intro s ss hsup hne hnm
    rw [hsup] at hnm
    simp [_resolve_kv_cache_strategy, h, hsup, hne, hnm]
  · intro hsup
    simp [_resolve_kv_cache_strategy, h, hsup]
  · intro hne hmem
    rcases hsup : lookupStrategies qe map with _ | ⟨s, ss⟩
    · rw [hsup] at hmem
      simp at hmem
    · rw [hsup] at hmem
      simp [_resolve_kv_cache_strategy, h, hsup, hne, hmem]
  · rcases hsup : lookupStrategies qe map with _ | ⟨s, ss⟩
    · exact ⟨cfg, by simp [_resolve_kv_cache_strategy, h, hsup]⟩
    · by_cases hmd : cfg._kv_cache_config.cache_strategy = KVCacheStrategy.model_default
      · exact ⟨setCacheStrategy cfg s, by
          simp [_resolve_kv_cache_strategy, h, hsup, hmd]⟩
      · by_cases hnm : cfg._kv_cache_config.cache_strategy ∈ s :: ss
        · exact ⟨cfg, by simp [_resolve_kv_cache_strategy, h, hsup, hmd, hnm]⟩
        · exact ⟨setCacheStrategy cfg s, by
            simp [_resolve_kv_cache_strategy, h, hsup, hmd, hnm]⟩

/-- Witness for C7 at a concrete input: `q4_k` supports only `paged` and the
requested strategy is `continuous`, so the strategy is downgraded to `paged`
without an error. -/
theorem C7_witness :
    _resolve_kv_cache_strategy mapC7 cfgC7 =
      .ok (setCacheStrategy cfgC7 KVCacheStrategy.paged) :=
  (C7_cache_strategy_resolution mapC7 cfgC7 SupportedEncoding.q4_k rfl).2.1
    KVCacheStrategy.paged [] rfl (by decide) (by decide)

/-! ### Stage-preservation lemmas for the post-encoding pipeline -/

theorem vqedc_ok (env : Env) (l : List SupportedEncoding)
    (cfg c : MAXModelConfig)
    (h : _validate_quantization_encoding_device_compatibility env l cfg = .ok c) :
    c = cfg ∧ cfg.quantization_encoding.isSome = true := by
  unfold _validate_quantization_encoding_device_compatibility at h
  split at h
  · simp at h
  · rename_i qe hq
    split at h
    · simp at h
    · simp only [Except.ok.injEq] at h
      exact ⟨h.symm, by rw [hq]; rfl⟩

theorem finalize_preserves (env : Env) (cfg c : MAXModelConfig)
    (h : _finalize_encoding_config env cfg = .ok c) :
    c.weight_path = cfg.weight_path ∧
    c.quantization_encoding = cfg.quantization_encoding := by
  unfold _finalize_encoding_config at h
  split at h
  · split at h
    · simp at h
    · simp only [Except.ok.injEq] at h
      subst h
      simp
  · simp only [Except.ok.injEq] at h
    subst h
    simp

theorem fillWeightPath_preserves_encoding (env : Env) (dwf : WeightsFormat)
    (qe : SupportedEncoding) (cfg : MAXModelConfig) :
    (fillWeightPath env dwf qe cfg).quantization_encoding =
      cfg.quantization_encoding := by
  unfold fillWeightPath
  split
  · rfl
  · dsimp only
    split
    · rfl
    · split <;> rfl

theorem rwp_ok (env : Env) (dwf : WeightsFormat) (cfg c : MAXModelConfig)
    (h : _resolve_weight_path env dwf cfg = .ok c) :
    c.weight_path ≠ [] ∧
    c.quantization_encoding = cfg.quantization_encoding := by
  unfold _resolve_weight_path at h
  split at h
  · simp at h
  · rename_i qe hq
    simp only [] at h
    split at h
    · split at h <;> simp at h
    · rename_i a t hwp
      simp only [Except.ok.injEq] at h
      subst h
      exact ⟨by rw [hwp]; simp, fillWeightPath_preserves_encoding env dwf qe cfg⟩

theorem rkv_ok (map : List (SupportedEncoding × List KVCacheStrategy))
    (cfg c : MAXModelConfig)
    (h : _resolve_kv_cache_strategy map cfg = .ok c) :
    c.weight_path = cfg.weight_path ∧
    c.quantization_encoding = cfg.quantization_encoding := by
  unfold _resolve_kv_cache_strategy at h
  split at h
  · simp at h
  · simp only [] at h
    split at h
    · split at h
      · simp only [Except.ok.injEq] at h
        subst h
        simp [setCacheStrategy]
      · split at h <;>
          (simp only [Except.ok.injEq] at h
           subst h
           simp [setCacheStrategy])
    · simp only [Except.ok.injEq] at h
      subst h
      simp

theorem validateFinalGo_ok (env : Env) (cfg : MAXModelConfig) :
    ∀ (l : List WEntry) (c : MAXModelConfig),
      validateFinalGo env cfg l = .ok c → c = cfg := by
  intro l
  induction l with
  | nil =>
    intro c h
    simp only [validateFinalGo, Except.ok.injEq] at h
    exact h.symm
  | cons p rest ih =>
    intro c h
    unfold validateFinalGo at h
    split at h
    · simp at h
    · exact ih c h
    · split at h
      · simp at h
      · split at h
        · simp at h
        · exact ih c h
      · simp at h

theorem vfinal_ok (env : Env) (cfg c : MAXModelConfig)
    (h : _validate_final_architecture_model_path_weight_path env cfg = .ok c) :
    c = cfg := by
  unfold _validate_final_architecture_model_path_weight_path at h
  split at h
  · simp at h
  · exact validateFinalGo_ok env cfg cfg.weight_path c h

/-- C4 (amended): whenever `resolve()` followed by
`validate_and_resolve_with_set_quantization_encoding` completes without
raising, the final state has a non-empty `weight_path` and a set
`quantization_encoding`.  (The claim additionally asserted a non-empty
`model_path`, which the code does not guarantee — see the counterexample.) -/
theorem C4_post_resolution_invariants (env : Env)
    (map : List (SupportedEncoding × List KVCacheStrategy))
    (dwf : WeightsFormat) (cfg cfg' : MAXModelConfig)
    (h : resolveThenValidate env map dwf cfg = .ok cfg') :
    cfg'.weight_path ≠ [] ∧ cfg'.quantization_encoding.isSome = true := by
  unfold resolveThenValidate at h
  split at h
  · simp at h
  · rename_i c hres
    unfold validate_and_resolve_with_set_quantization_encoding at h
    split at h
    · simp at h
    · rename_i c1 h1
      split at h
      · simp at h
      · rename_i c2 h2
        split at h
        · simp at h
        · rename_i c3 h3
          split at h
          · simp at h
          · rename_i c4 h4
            have e5 := vfinal_ok env c4 cfg' h
            have e4 := rkv_ok map c3 c4 h4
            have e3 := rwp_ok env dwf c2 c3 h3
            have e2 := finalize_preserves env c1 c2 h2
            have e1 := vqedc_ok env (map.map Prod.fst) c c1 h1
            subst e5
            refine ⟨by rw [e4.1]; exact e3.1, ?_⟩
            rw [e4.2, e3.2, e2.2, e1.1]
            exact e1.2

/-- Witness for C4 at a concrete successfully resolving input. -/
theorem C4_witness :
    (setCacheStrategy cfgC4 KVCacheStrategy.paged).weight_path ≠ [] ∧
    (setCacheStrategy cfgC4 KVCacheStrategy.paged).quantization_encoding.isSome
      = true :=
  C4_post_resolution_invariants env4 mapC4 WeightsFormat.gguf cfgC4
    (setCacheStrategy cfgC4 KVCacheStrategy.paged) rfl

/-- Counterexample to C4 as stated: the full pipeline completes without
raising on a configuration whose `model_path` is empty (its single weight
entry exists as a local file, so normalization keeps it, no repository id is
ever derived, and every later stage passes), and `model_path` is still empty
in the final state. -/
theorem C4_counterexample :
    resolveThenValidate env4 mapC4 WeightsFormat.gguf cfgC4 =
      .ok (setCacheStrategy cfgC4 KVCacheStrategy.paged) ∧
    (setCacheStrategy cfgC4 KVCacheStrategy.paged).model_path = "" :=
  ⟨rfl, rfl⟩

/-- Entries that resolve locally are skipped without raising by the final
validation loop. -/
theorem validateFinalGo_skip (env : Env) (cfg : MAXModelConfig)
    (l r : List WEntry)
    (h : ∀ e ∈ l, ∃ p, _local_weight_path env cfg e.s = .ok (some p)) :
    validateFinalGo env cfg (l ++ r) = validateFinalGo env cfg r := by
  induction l with
  | nil => rfl
  | cons e rest ih =>
    obtain ⟨p, hp⟩ := h e (List.mem_cons_self _ _)
    have hrest := ih fun x hx => h x (List.mem_cons_of_mem _ hx)
    simp [validateFinalGo, hp, hrest]

/-- C8 (amended): final validation walks the non-empty `weight_path` in order;
entries found locally raise nothing, and at the first entry whose local probe
yields a clean miss the error is classified by repository type: local
repository → `FileNotFoundError` (WeightNotFound), online repository whose
remote existence check fails → `ValueError` (InvalidConfiguration), any other
classification → `RuntimeError` (InternalError).  If instead the local probe
itself raises (the cache records a confirmed-absent sentinel), that
`FileNotFoundError` is propagated regardless of repository type, before any
remote check — which is where the claim as stated fails. -/
theorem C8_final_validation_first_failure (env : Env) (cfg : MAXModelConfig)
    (ws1 : List WEntry) (w : WEntry) (ws2 : List WEntry)
    (h0 : cfg.weight_path = ws1 ++ w :: ws2)
    (h1 : ∀ e ∈ ws1, ∃ p, _local_weight_path env cfg e.s = .ok (some p)) :
    (_local_weight_path env cfg w.s = .ok none →
      (env.repo_type (huggingface_weights_repo_id cfg) = RepoType.localRepo →
        _validate_final_architecture_model_path_weight_path env cfg =
          .error (.fileNotFoundError
            (weightNotFoundMsg w.s (huggingface_weights_repo_id cfg)))) ∧
      (env.repo_type (huggingface_weights_repo_id cfg) = RepoType.online →
        env.repo_file_exists (huggingface_weights_repo_id cfg) w.s = false →
        _validate_final_architecture_model_path_weight_path env cfg =
          .error (.valueError
            (weightNotOnHubMsg w.s (huggingface_weights_repo_id cfg)))) ∧
      (env.repo_type (huggingface_weights_repo_id cfg) = RepoType.unexpected →
        _validate_final_architecture_model_path_weight_path env cfg =
          .error (.runtimeError unexpectedRepoMsg))) ∧
    (∀ err, _local_weight_path env cfg w.s = .error err →
      _validate_final_architecture_model_path_weight_path env cfg =
        .error err) := by
  have hv : _validate_final_architecture_model_path_weight_path env cfg =
      validateFinalGo env cfg (w :: ws2) := by
    unfold _validate_final_architecture_model_path_weight_path
    cases hwp : cfg.weight_path with
    | nil =>
      rw [h0] at hwp
      simp at hwp
    | cons a t =>
      have : validateFinalGo env cfg cfg.weight_path =
          validateFinalGo env cfg (w :: ws2) := by
        rw [h0, validateFinalGo_skip env cfg ws1 (w :: ws2) h1]
      rw [hwp] at this
      exact this
  refine ⟨?_, ?_⟩
  · intro hprobe
    refine ⟨?_, ?_, ?_⟩
    · intro hrt
      rw [hv]
      simp [validateFinalGo, hprobe, hrt]
    · intro hrt hre
      rw [hv]
      simp [validateFinalGo, hprobe, hrt, hre]
    · intro hrt
      rw [hv]
      simp [validateFinalGo, hprobe, hrt]
  · intro err herr
    rw [hv]
    simp [validateFinalGo, herr]

/-- Witness for C8 at a concrete input: a local repository missing the file
raises `FileNotFoundError` with the WeightNotFound message. -/
theorem C8_witness :
    _validate_final_architecture_model_path_weight_path env8w cfgC8 =
      .error (.fileNotFoundError (weightNotFoundMsg "w.bin" "acme/r")) :=
  ((C8_final_validation_first_failure env8w cfgC8 [] (WEntry.path "w.bin") []
    rfl (by simp)).1 rfl).1 rfl

/-- Counterexample to C8 as stated: online repository, the remote existence
check fails, yet the raised error is a `FileNotFoundError` (from the
confirmed-absent cache sentinel), not the `ValueError` the claim requires for
online repositories. -/
theorem C8_counterexample :
    env8.repo_type (huggingface_weights_repo_id cfgC8) = RepoType.online ∧
    env8.repo_file_exists (huggingface_weights_repo_id cfgC8) "w.bin" = false ∧
    _validate_final_architecture_model_path_weight_path env8 cfgC8 =
      .error (.fileNotFoundError (cachedNoExistMsg "w.bin")) :=
  ⟨rfl, rfl, rfl⟩

/-- Successful normalization leaves `trust_remote_code` untouched. -/
theorem resolveNormalization_trust (env : Env) (cfg1 c : MAXModelConfig)
    (h : resolveNormalization env cfg1 = .ok c) :
    c.trust_remote_code = cfg1.trust_remote_code := by
  unfold resolveNormalization at h
  split at h
  · simp at h
  · simp only [] at h
    split at h
    · split at h
      · simp at h
      · split at h
        · simp at h
        · simp only [Except.ok.injEq] at h
          subst h
          rfl
    · split at h
      · split at h
        · simp only [Except.ok.injEq] at h
          subst h
          rfl
        · simp only [Except.ok.injEq] at h
          subst h
          rfl
      · simp only [Except.ok.injEq] at h
        subst h
        rfl

/-- C9: `resolve()` force-sets `trust_remote_code` to `True` whenever the
model path contains `replit` case-insensitively, and leaves it unchanged for
every other model path (over completed resolutions). -/
theorem C9_replit_forces_trust_remote_code (env : Env)
    (cfg cfg' : MAXModelConfig) (h : resolve env cfg = .ok cfg') :
    (containsReplit cfg.model_path = true → cfg'.trust_remote_code = true) ∧
    (containsReplit cfg.model_path = false →
      cfg'.trust_remote_code = cfg.trust_remote_code) := by
  unfold resolve at h
  split at h
  · simp at h
  · constructor
    · intro hc
      rw [hc] at h
      simp only [if_pos] at h
      have := resolveNormalization_trust env _ cfg' h
      simpa using this
    · intro hc
      rw [hc] at h
      simp only [Bool.false_eq_true, if_false] at h
      exact resolveNormalization_trust env cfg cfg' h

/-- Witness for C9 at a concrete input: a replit model path with
`trust_remote_code` initially false. -/
theorem C9_witness :
    resolve env9 cfgC9 = .ok {cfgC9 with trust_remote_code := true} ∧
    ({cfgC9 with trust_remote_code := true} :
      MAXModelConfig).trust_remote_code = true :=
  ⟨rfl, (C9_replit_forces_trust_remote_code env9 cfgC9
    {cfgC9 with trust_remote_code := true} rfl).1 rfl⟩

end MaxConfig
